import Mathlib

/-!
Verification of the WildSafePath geospatial navigation core.

Shallow embedding of the route-acquisition, arbitration and live-tracking
logic of the repository (src/App.tsx, src/hooks/useAnimalData.ts) over exact
rational arithmetic.  Coordinates are pairs of rationals; the haversine
great-circle distance (geoService.calculateDistance) is transcendental, so
every function that consumes it is parameterised by an abstract distance
function of type Pt to Rat: all properties verified here depend only on
comparisons of the distance values, never on the trigonometric formula
itself.
-/

namespace WildSafePath

/-- A geographic point, written (lat, lon) in degrees, as exact rationals. -/
abbrev Pt : Type := ℚ × ℚ

/-! ## Resilient Fetch (src/App.tsx, fetchJson)

The helper loops over at most `retries` attempts.  Each attempt either
returns a parsed body (2xx with valid JSON), returns null (2xx empty body),
or fails.  In the source, the 5xx branch sleeps for the current delay,
doubles it and continues; the 4xx branch and the JSON-parse-failure branch
each `throw`, but those throws are lexically inside the same `try` block
whose `catch` handles transport failures, so they too sleep, double the
delay and continue.  After the loop a single generic error is thrown.
The embedding scripts the sequence of responses the network would produce.
-/

/-- One scripted network response for a single fetch attempt. -/
inductive FetchResp where
  /-- 2xx response whose body parses to the value `v`. -/
  | okJson (v : ℕ)
  /-- 2xx response with an empty body (the helper returns null). -/
  | okEmpty
  /-- 2xx response whose body is not valid JSON. -/
  | okMalformed
  /-- non-2xx response with the given HTTP status code. -/
  | httpStatus (code : ℕ)
  /-- transport failure (fetch itself rejects). -/
  | netError
deriving DecidableEq

/-- Terminal outcome of the fetch helper. -/
inductive FetchResult where
  /-- the parsed JSON body. -/
  | parsed (v : ℕ)
  /-- null, for an empty 2xx body. -/
  | nullBody
  /-- the generic error thrown after all attempts are exhausted. -/
  | fetchFailed
deriving DecidableEq

/-- Loop body of fetchJson.  Arguments: remaining scripted responses,
remaining attempts, current backoff delay in ms, and the accumulated list of
delays actually slept.  Returns the outcome and the slept delays. -/
def fetchJsonGo : List FetchResp → ℕ → ℕ → List ℕ → FetchResult × List ℕ
  | _, 0, _, delays => (.fetchFailed, delays)
  | [], r + 1, delay, delays =>
      -- no scripted response: the fetch call itself rejects (network error),
      -- which the catch block retries after sleeping
      fetchJsonGo [] r (delay * 2) (delays ++ [delay])
  | resp :: rest, r + 1, delay, delays =>
      match resp with
      | .okJson v => (.parsed v, delays)
      | .okEmpty => (.nullBody, delays)
      | .okMalformed =>
          -- the parse-failure throw is caught by the enclosing catch,
          -- which sleeps and retries
          fetchJsonGo rest r (delay * 2) (delays ++ [delay])
      | .httpStatus code =>
          if 500 ≤ code ∧ code < 600 then
            -- explicit server-error retry branch
            fetchJsonGo rest r (delay * 2) (delays ++ [delay])
          else
            -- the client-error branch throws, but that throw is caught by
            -- the enclosing catch of the same try, which sleeps and retries
            fetchJsonGo rest r (delay * 2) (delays ++ [delay])
      | .netError =>
          fetchJsonGo rest r (delay * 2) (delays ++ [delay])

/-- fetchJson with the source defaults: retries = 3, initialDelay = 1000 ms. -/
def fetchJson (script : List FetchResp) : FetchResult × List ℕ :=
  fetchJsonGo script 3 1000 []

/-! ## Routes and the plausibility check (src/App.tsx, isRouteReasonable) -/

/-- Travel mode of a route. -/
inductive TravelMode where
  | car
  | bus
  | bike
  | walk
deriving DecidableEq

/-- A vetted route as produced by the routing layer: decoded path, summary
distance (km) and duration (minutes), endpoints, mode and the high-risk
flag (absent in a freshly fetched route, i.e. false). -/
structure Route where
  path : List Pt
  distanceKm : ℚ
  durationMinutes : ℚ
  startPt : Pt
  endPt : Pt
  mode : TravelMode
  isHighRisk : Bool := false
deriving DecidableEq

/-- Per-mode minimum plausible average speed in km/h. -/
def minSpeed : TravelMode → ℚ
  | .car => 10
  | .bus => 10
  | .bike => 8
  | .walk => 2

/-- Per-mode maximum plausible average speed in km/h. -/
def maxSpeed : TravelMode → ℚ
  | .car => 120
  | .bus => 100
  | .bike => 35
  | .walk => 8

/-- isRouteReasonable from src/App.tsx, with the haversine
geo.calculateDistance abstracted as dist. -/
def isRouteReasonable (dist : Pt → Pt → ℚ) (route : Route) (s e : Pt) : Bool :=
  let straightLineDistance := dist s e
  let maxReasonableDistance := straightLineDistance * 7
  if route.distanceKm > maxReasonableDistance then false
  else if route.durationMinutes > 0 then
    let avgSpeedKmh := route.distanceKm / (route.durationMinutes / 60)
    if avgSpeedKmh < minSpeed route.mode ∨ avgSpeedKmh > maxSpeed route.mode then false
    else true
  else true

/-- Decision core of getSafeNavigationRoute: the broker discards a fetched
route that fails the plausibility check and returns none. -/
def vetRoute (dist : Pt → Pt → ℚ) (fetched : Option Route) (s e : Pt) : Option Route :=
  match fetched with
  | none => none
  | some r => if isRouteReasonable dist r s e then some r else none

/-! ## Route arbitration (src/hooks/useAnimalData.ts, calculateSafeRoute) -/

/-- Acceptance threshold: the safe alternative must be faster than 2.5 times
the direct duration. -/
def DURATION_MULTIPLIER_THRESHOLD : ℚ := 2.5

/-- Acceptance threshold: the safe alternative must add less than 120
minutes over the direct duration. -/
def DURATION_ABSOLUTE_THRESHOLD_MINS : ℚ := 120

/-- Outcome of the arbitration between the direct route and the
hazard-avoiding alternative. -/
structure ArbitrationOutcome where
  finalRoute : Route
  alternative : Option Route
deriving DecidableEq

/-- The primary/alternative decision block of calculateSafeRoute, given the
direct route, the optional safe alternative returned with avoidance
geometry, and the avoidance polygons that were built. -/
def arbitrateRoutes (directRoute : Route) (safeAlternative : Option Route)
    (avoidancePolygons : List (List Pt)) : ArbitrationOutcome :=
  if avoidancePolygons.length > 0 then
    match safeAlternative with
    | some safe =>
        if safe.durationMinutes < directRoute.durationMinutes * DURATION_MULTIPLIER_THRESHOLD ∧
            safe.durationMinutes < directRoute.durationMinutes + DURATION_ABSOLUTE_THRESHOLD_MINS then
          { finalRoute := safe, alternative := some { directRoute with isHighRisk := true } }
        else
          { finalRoute := { directRoute with isHighRisk := true }, alternative := safeAlternative }
    | none =>
        { finalRoute := { directRoute with isHighRisk := true }, alternative := none }
  else
    { finalRoute := directRoute, alternative := none }

/-! ## Nearest point on path (src/App.tsx, getPathDataFromLocation)

The running minimum distance starts at JavaScript Infinity; it is modelled
as an Option, none standing for Infinity. -/

/-- d < m where m may be Infinity (none). -/
def ltInf (d : ℚ) (m : Option ℚ) : Bool :=
  match m with
  | none => true
  | some v => d < v

/-- Early-exit bound: stop after the distance has increased for this many
consecutive path points. -/
def INCREASING_THRESHOLD : ℕ := 30

/-- The search loop of getPathDataFromLocation.  Arguments: the indices
still to scan, then the loop state (closestPointIndex, minDistance,
increasingCount).  Returns the final (closestPointIndex, minDistance). -/
def pathSearchLoop (dist : Pt → Pt → ℚ) (userLocation : Pt) (routePath : List Pt) :
    List ℕ → ℕ → Option ℚ → ℕ → ℕ × Option ℚ
  | [], closest, minD, _ => (closest, minD)
  | i :: rest, closest, minD, increasingCount =>
      let pathPoint := routePath.getD i (0, 0)
      let d := dist userLocation pathPoint
      if ltInf d minD then
        pathSearchLoop dist userLocation routePath rest i (some d) 0
      else
        if increasingCount + 1 > INCREASING_THRESHOLD then (closest, minD)
        else pathSearchLoop dist userLocation routePath rest closest minD (increasingCount + 1)

/-- getPathDataFromLocation from src/App.tsx: remaining path (query point
prepended), distance to the path (none = Infinity), and the index of the
closest path vertex found.  Natural subtraction realises
max(0, searchStartIndex - 20). -/
def getPathDataFromLocation (dist : Pt → Pt → ℚ) (userLocation : Pt)
    (routePath : List Pt) (searchStartIndex : ℕ) : List Pt × Option ℚ × ℕ :=
  if routePath.length < 2 then ([], none, 0)
  else
    let searchFrom := searchStartIndex - 20
    let idxs := List.range' searchFrom (routePath.length - searchFrom)
    let res := pathSearchLoop dist userLocation routePath idxs searchStartIndex none 0
    let remainingSegment := routePath.drop res.1
    (userLocation :: remainingSegment, res.2, res.1)

/-! ## Cardinal spline (src/App.tsx, getSplinePoint / createSplinePath) -/

/-- One evaluation of the cardinal spline basis at parameter t over four
control points. -/
def getSplinePoint (t : ℚ) (p0 p1 p2 p3 : Pt) (tension : ℚ) : Pt :=
  let t2 := t * t
  let t3 := t2 * t
  let b1 := -tension * t3 + 2 * tension * t2 - tension * t
  let b2 := (2 - tension) * t3 + (tension - 3) * t2 + 1
  let b3 := (tension - 2) * t3 + (3 - 2 * tension) * t2 + tension * t
  let b4 := tension * t3 - tension * t2
  (p0.1 * b1 + p1.1 * b2 + p2.1 * b3 + p3.1 * b4,
    p0.2 * b1 + p1.2 * b2 + p2.2 * b3 + p3.2 * b4)

/-- createSplinePath from src/App.tsx: fewer than 2 waypoints are returned
unchanged; otherwise the first and last waypoints are duplicated as phantom
control points, each segment i runs the spline for t = 0 .. substeps, and
the last input waypoint is appended when the generated path is nonempty. -/
def createSplinePath (waypoints : List Pt) (substeps : ℕ) (tension : ℚ) : List Pt :=
  if waypoints.length < 2 then waypoints
  else
    let points := waypoints.headI :: (waypoints ++ [waypoints.getLastD (0, 0)])
    let path := (List.range' 1 (points.length - 3)).flatMap (fun i =>
      (List.range (substeps + 1)).map (fun (t : ℕ) =>
        getSplinePoint ((t / substeps : ℚ)) (points.getD (i - 1) (0, 0))
          (points.getD i (0, 0)) (points.getD (i + 1) (0, 0))
          (points.getD (i + 2) (0, 0)) tension))
    if path.length > 0 then path ++ [waypoints.getLastD (0, 0)] else path

/-! ## Hazard predictor (src/App.tsx, predictAnimalPaths)

One species at a time.  The sighting list is ordered most-recent-first.
The pseudo-random draw Math.random() feeds cos/sin of a random angle; the
embedding abstracts that draw as the pair (randCos, randSin). -/

/-- A single sighting position. -/
structure Sighting where
  lat : ℚ
  lon : ℚ
deriving DecidableEq

instance : Inhabited Sighting := ⟨⟨0, 0⟩⟩

/-- The magic displacement used when only one sighting exists
(0.01 degrees, roughly 1.1 km). -/
def randomDisplacement : ℚ := 1 / 100

/-- Per-species body of predictAnimalPaths: zero sightings yield no
prediction; one sighting yields two pseudo-random steps; two or more yield
two linear-extrapolation steps using the mean displacement between
consecutive sightings ordered oldest to newest (the TensorFlow slice /
sub / mean pipeline, written out over lists). -/
def predictAnimal (randCos randSin : ℚ) (sightings : List Sighting) : List Sighting :=
  if sightings.length < 1 then []
  else
    let lastSighting := sightings.headI
    if sightings.length < 2 then
      let pred1 : Sighting :=
        ⟨lastSighting.lat + randomDisplacement * randCos,
          lastSighting.lon + randomDisplacement * randSin⟩
      let pred2 : Sighting :=
        ⟨pred1.lat + randomDisplacement * randCos,
          pred1.lon + randomDisplacement * randSin⟩
      [pred1, pred2]
    else
      let coords := (sightings.map fun s => (s.lat, s.lon)).reverse
      let deltas := List.zipWith (fun prev next => (next.1 - prev.1, next.2 - prev.2))
        coords coords.tail
      let avgDelta : Pt :=
        ((deltas.map Prod.fst).sum / (deltas.length : ℚ),
          (deltas.map Prod.snd).sum / (deltas.length : ℚ))
      let pred1 : Sighting := ⟨lastSighting.lat + avgDelta.1, lastSighting.lon + avgDelta.2⟩
      let pred2 : Sighting := ⟨pred1.lat + avgDelta.1, pred1.lon + avgDelta.2⟩
      [pred1, pred2]

/-! ## Navigation session: proactive hazard alerting
(src/hooks/useAnimalData.ts, the watchPosition handler inside
startNavigation)

State relevant to hazard alerts: the suppression set shownAnimalAlertsRef
(a set of hazard ids, modelled as a list) and the live navigation alert
navigationAlertRef (none when no alert is showing).  An alert carries the
id of the hazard that raised it, or none for system alerts such as the
signal-lost or navigation-has-begun messages. -/

/-- A hazard annotated as near the active route. -/
structure NearbyAnimal where
  id : ℕ
  current : Pt
deriving DecidableEq

/-- A live navigation alert: the hazard id it is about, if any. -/
structure NavAlert where
  animalId : Option ℕ
deriving DecidableEq

/-- Alert-relevant session state. -/
structure AlertState where
  shown : List ℕ
  active : Option NavAlert
deriving DecidableEq

/-- Alert raised when the user is within this many km of a hazard. -/
def ANIMAL_ALERT_THRESHOLD_KM : ℚ := 2

/-- The for-loop over nearby animals in the position-fix handler.  A hazard
raises an alert only when it is within threshold, not yet suppressed, and
no alert is active; raising adds the id to the suppression set and breaks
out of the loop.  When an alert is already active, a qualifying hazard is
neither raised nor suppressed and the loop continues.  Returns the new
state together with the ids alerted during this pass. -/
def animalAlertLoop (dist : Pt → Pt → ℚ) (liveLocation : Pt) :
    List NearbyAnimal → AlertState → AlertState × List ℕ
  | [], st => (st, [])
  | a :: rest, st =>
      let distanceToAnimal := dist liveLocation a.current
      if distanceToAnimal ≤ ANIMAL_ALERT_THRESHOLD_KM ∧ a.id ∉ st.shown then
        match st.active with
        | none =>
            ({ shown := a.id :: st.shown, active := some ⟨some a.id⟩ }, [a.id])
        | some _ => animalAlertLoop dist liveLocation rest st
      else animalAlertLoop dist liveLocation rest st

/-- The hazard-alert section of one position-fix handler run (including the
emptiness guard on the nearby-animal list). -/
def processAnimalAlerts (dist : Pt → Pt → ℚ) (liveLocation : Pt)
    (nearbyAnimals : List NearbyAnimal) (st : AlertState) : AlertState × List ℕ :=
  if nearbyAnimals.length > 0 then animalAlertLoop dist liveLocation nearbyAnimals st
  else (st, [])

/-- A whole session worth of position fixes.  Each fix is a live position
together with a flag saying whether the active alert was cleared before the
fix was processed (the user dismissing it, the signal-lost auto-clear, or a
weather transition; all of these only ever clear the active alert, never
touch the suppression set).  Returns the final state and the concatenated
ids alerted over the session. -/
def runAlertSession (dist : Pt → Pt → ℚ) (nearbyAnimals : List NearbyAnimal) :
    AlertState → List (Pt × Bool) → AlertState × List ℕ
  | st, [] => (st, [])
  | st, (live, cleared) :: rest =>
      let st0 := if cleared then { st with active := none } else st
      let step := processAnimalAlerts dist live nearbyAnimals st0
      let tailRun := runAlertSession dist nearbyAnimals step.1 rest
      (tailRun.1, step.2 ++ tailRun.2)

/-! ## Navigation session: per-fix progress computation
(src/hooks/useAnimalData.ts, the tail of the watchPosition handler) -/

/-- "Approaching start" distance threshold in km. -/
def APPROACHING_START_THRESHOLD_KM : ℚ := 1 / 2

/-- JavaScript Math.round: round half toward positive infinity. -/
def jsRound (x : ℚ) : ℤ := ⌊x + 1 / 2⌋

/-- JavaScript parseFloat(x.toFixed(1)) on exact rationals: round to one
decimal place, ties away from zero picked as the larger candidate. -/
def roundTo1 (x : ℚ) : ℚ := (jsRound (x * 10) : ℚ) / 10

/-- The stats emitted to the host on a processed fix. -/
structure NavStats where
  remainingKm : ℚ
  etaMinutes : ℚ
  progressPercent : ℤ
deriving DecidableEq

/-- The session-start snapshot of the planned route's totals. -/
structure RouteSnapshot where
  distanceKm : ℚ
  durationMinutes : ℚ
deriving DecidableEq

/-- Everything the progress section of one fix handler writes: the
approaching flag, whether the one-shot navigation-has-begun alert fired,
the emitted stats, the matched-path-index cursor after the fix, and the
distance-to-start figure shown to the user while approaching (none when
not approaching). -/
structure ProgressOutput where
  isApproachingStart : Bool
  navigationBegunAlert : Bool
  stats : NavStats
  newClosestPathIndex : ℕ
  approachDistanceKm : Option ℚ
deriving DecidableEq

/-- The route-progress section of one position-fix handler run.  Inputs:
the active route (the emergency route when isEmergency is true, else the
planned route), the frozen session-start snapshot, the approaching flag and
matched-index cursor going into the fix, and the live position. -/
def processRouteProgress (dist : Pt → Pt → ℚ) (liveLocation : Pt)
    (activeRoute : Route) (isEmergency : Bool) (snapshot : Option RouteSnapshot)
    (wasApproaching : Bool) (prevIndex : ℕ) : ProgressOutput :=
  let totalDistanceKm := activeRoute.distanceKm
  let totalDurationMinutes := activeRoute.durationMinutes
  let routePath := activeRoute.path
  let newClosestPointIndex := (getPathDataFromLocation dist liveLocation routePath prevIndex).2.2
  let distanceToStart := dist liveLocation activeRoute.startPt
  let isNowApproaching :=
    isEmergency = false ∧ newClosestPointIndex = 0 ∧
      distanceToStart > APPROACHING_START_THRESHOLD_KM
  if isNowApproaching then
    { isApproachingStart := true
      navigationBegunAlert := false
      stats :=
        { remainingKm := match snapshot with | some snap => snap.distanceKm | none => totalDistanceKm
          etaMinutes := match snapshot with
            | some snap => snap.durationMinutes
            | none => totalDurationMinutes
          progressPercent := 0 }
      newClosestPathIndex := prevIndex
      approachDistanceKm := some distanceToStart }
  else
    let totalPathPoints := routePath.length
    let progressFraction : ℚ :=
      if totalPathPoints > 1 then (newClosestPointIndex : ℚ) / ((totalPathPoints : ℚ) - 1)
      else 0
    let remainingKm := totalDistanceKm * (1 - progressFraction)
    let etaMinutes := totalDurationMinutes * (1 - progressFraction)
    let progressPercent := jsRound (progressFraction * 100)
    { isApproachingStart := false
      navigationBegunAlert := wasApproaching
      stats :=
        { remainingKm := roundTo1 remainingKm
          etaMinutes := (jsRound etaMinutes : ℚ)
          progressPercent := max 0 (min 100 progressPercent) }
      newClosestPathIndex := newClosestPointIndex
      approachDistanceKm := none }

/-! ## Concrete fixtures for scenario proofs

The haversine metric is transcendental, so concrete scenarios instantiate
the abstract distance parameter with a computable surrogate; every property
proved below depends only on how the distance values compare to the
thresholds, never on the metric's formula. -/

/-- Squared Euclidean distance on raw coordinates: the computable surrogate
metric used in concrete scenarios. -/
def cdistSq : Pt → Pt → ℚ :=
  fun a b => (a.1 - b.1) * (a.1 - b.1) + (a.2 - b.2) * (a.2 - b.2)

/-- A four-vertex straight path along the equator. -/
def demoPath : List Pt := [(0, 0), (1, 0), (2, 0), (3, 0)]

/-- A demo route over demoPath: 10 km, 30 minutes, on foot. -/
def demoRoute : Route :=
  { path := demoPath, distanceKm := 10, durationMinutes := 30,
    startPt := (0, 0), endPt := (3, 0), mode := .walk }

/-! ## Claim C1 -/

/-- C1: the claim says a client-class (4xx) response and a malformed-response
parse failure fail immediately without any retry; only 5xx and transport
failures should be retried.  The code's comments state the same intent, but
both throws sit inside the try block whose catch implements the retry, so
4xx responses and parse failures are in fact retried like transport errors.
This theorem evaluates the embedded fetchJson: a 404 followed by a 200
succeeds with the second response's body after sleeping 1s (so the 404 was
retried, not failed immediately); likewise a malformed body followed by a
200; the spec's positive scenario (500, 500, 200 with backoff 1s then 2s)
does hold; three 404s burn all three attempts before the generic failure. -/
theorem fetchJson_retries_client_errors :
    fetchJson [.httpStatus 404, .okJson 7] = (.parsed 7, [1000]) ∧
    fetchJson [.okMalformed, .okJson 5] = (.parsed 5, [1000]) ∧
    fetchJson [.httpStatus 500, .httpStatus 500, .okJson 7] = (.parsed 7, [1000, 2000]) ∧
    fetchJson [.httpStatus 404, .httpStatus 404, .httpStatus 404] =
      (.fetchFailed, [1000, 2000, 4000]) := by
  refine ⟨?_, ?_, ?_, ?_⟩ <;> decide

/-! ## Claim C2 -/

/-- C2: when avoidance polygons exist, a returned safe alternative becomes
the primary route exactly when its duration beats both thresholds
(safe < direct times 2.5 and safe < direct + 120 min), in which case the
direct route is kept as the high-risk-flagged alternative; otherwise the
direct route stays primary flagged high-risk and whatever safe alternative
was returned (possibly none) is retained as the secondary suggestion. -/
theorem arbitrateRoutes_decision (direct safe : Route) (polys : List (List Pt))
    (hp : polys ≠ []) :
    (safe.durationMinutes < direct.durationMinutes * DURATION_MULTIPLIER_THRESHOLD ∧
        safe.durationMinutes < direct.durationMinutes + DURATION_ABSOLUTE_THRESHOLD_MINS →
      arbitrateRoutes direct (some safe) polys =
        { finalRoute := safe, alternative := some { direct with isHighRisk := true } }) ∧
    (¬(safe.durationMinutes < direct.durationMinutes * DURATION_MULTIPLIER_THRESHOLD ∧
        safe.durationMinutes < direct.durationMinutes + DURATION_ABSOLUTE_THRESHOLD_MINS) →
      arbitrateRoutes direct (some safe) polys =
        { finalRoute := { direct with isHighRisk := true }, alternative := some safe }) ∧
    arbitrateRoutes direct none polys =
      { finalRoute := { direct with isHighRisk := true }, alternative := none } := by
  have hl : 0 < polys.length := List.length_pos.mpr hp
  refine ⟨fun h => ?_, fun h => ?_, ?_⟩
  · simp only [arbitrateRoutes, if_pos hl, if_pos h]
  · simp only [arbitrateRoutes, if_pos hl, if_neg h]
  · simp only [arbitrateRoutes, if_pos hl]

/-- C2 witness: the spec's arbiter scenario, direct 30 min versus safe
alternative 40 min with one avoidance polygon: the safe alternative becomes
primary and the direct route the flagged alternative. -/
theorem arbitrateRoutes_decision_witness :
    arbitrateRoutes demoRoute
        (some { demoRoute with durationMinutes := 40 }) [[(0, 0)]] =
      { finalRoute := { demoRoute with durationMinutes := 40 },
        alternative := some { demoRoute with isHighRisk := true } } := by
  have h := arbitrateRoutes_decision demoRoute
    { demoRoute with durationMinutes := 40 } [[(0, 0)]] (by simp)
  exact h.1 (by norm_num [demoRoute, DURATION_MULTIPLIER_THRESHOLD,
    DURATION_ABSOLUTE_THRESHOLD_MINS])

/-! ## Claim C3 -/

/-- C3: the plausibility check rejects a route (and the broker then returns
none) when its distance exceeds 7 times the straight-line distance, and
rejects a route whose implied average speed (distance over duration) falls
outside the per-mode band; in particular distance = 8 times straight-line
is rejected, a car route averaging 200 km/h is rejected, and a walk route
averaging 5 km/h (whose distance passes the 7x guard) is accepted. -/
theorem isRouteReasonable_checks (dist : Pt → Pt → ℚ) (route : Route) (s e : Pt) :
    (route.distanceKm > dist s e * 7 →
      isRouteReasonable dist route s e = false ∧
        vetRoute dist (some route) s e = none) ∧
    (route.durationMinutes > 0 →
      route.distanceKm / (route.durationMinutes / 60) < minSpeed route.mode ∨
        route.distanceKm / (route.durationMinutes / 60) > maxSpeed route.mode →
      isRouteReasonable dist route s e = false ∧
        vetRoute dist (some route) s e = none) ∧
    (0 < dist s e → route.distanceKm = 8 * dist s e →
      isRouteReasonable dist route s e = false) ∧
    (route.mode = .car → route.durationMinutes = 60 → route.distanceKm = 200 →
      isRouteReasonable dist route s e = false) ∧
    (route.mode = .walk → route.durationMinutes = 60 → route.distanceKm = 5 →
      route.distanceKm ≤ dist s e * 7 →
      isRouteReasonable dist route s e = true) := by
  refine ⟨fun h7 => ?_, fun hd hs => ?_, fun hpos h8 => ?_,
    fun hm hd h200 => ?_, fun hm hd h5 hok => ?_⟩
  · have : isRouteReasonable dist route s e = false := by
      simp only [isRouteReasonable, if_pos h7]
    exact ⟨this, by simp [vetRoute, this]⟩
  · have : isRouteReasonable dist route s e = false := by
      by_cases h7 : route.distanceKm > dist s e * 7
      · simp only [isRouteReasonable, if_pos h7]
      · simp only [isRouteReasonable, if_neg h7, if_pos hd, if_pos hs]
    exact ⟨this, by simp [vetRoute, this]⟩
  · have h7 : route.distanceKm > dist s e * 7 := by rw [h8]; nlinarith
    simp only [isRouteReasonable, if_pos h7]
  · by_cases h7 : route.distanceKm > dist s e * 7
    · simp only [isRouteReasonable, if_pos h7]
    · have hd0 : route.durationMinutes > 0 := by rw [hd]; norm_num
      have hs : route.distanceKm / (route.durationMinutes / 60) < minSpeed route.mode ∨
          route.distanceKm / (route.durationMinutes / 60) > maxSpeed route.mode := by
        right
        rw [hm, hd, h200, maxSpeed]
        norm_num
      simp only [isRouteReasonable, if_neg h7, if_pos hd0, if_pos hs]
  · have h7 : ¬route.distanceKm > dist s e * 7 := not_lt.mpr hok
    have hd0 : route.durationMinutes > 0 := by rw [hd]; norm_num
    have hs : ¬(route.distanceKm / (route.durationMinutes / 60) < minSpeed route.mode ∨
        route.distanceKm / (route.durationMinutes / 60) > maxSpeed route.mode) := by
      rw [hm, hd, h5, minSpeed, maxSpeed]
      norm_num
    simp only [isRouteReasonable, if_neg h7, if_pos hd0, if_neg hs]

/-- C3 witness: under a surrogate metric with straight-line value 1, a
route of distance 8 is rejected; a 60-minute 200 km car route is rejected
and discarded by the broker; a 60-minute 5 km walk route is accepted. -/
theorem isRouteReasonable_checks_witness :
    isRouteReasonable (fun _ _ => 1)
        { demoRoute with distanceKm := 8, durationMinutes := 0 } (0, 0) (3, 0) = false ∧
    isRouteReasonable (fun _ _ => 50)
        { demoRoute with mode := .car, distanceKm := 200, durationMinutes := 60 }
        (0, 0) (3, 0) = false ∧
    vetRoute (fun _ _ => 50)
        (some { demoRoute with mode := .car, distanceKm := 200, durationMinutes := 60 })
        (0, 0) (3, 0) = none ∧
    isRouteReasonable (fun _ _ => 1)
        { demoRoute with mode := .walk, distanceKm := 5, durationMinutes := 60 }
        (0, 0) (3, 0) = true := by
  refine ⟨?_, ?_, ?_, ?_⟩
  · exact (isRouteReasonable_checks (fun _ _ => 1)
      { demoRoute with distanceKm := 8, durationMinutes := 0 } (0, 0) (3, 0)).2.2.1
      (by norm_num) (by norm_num [demoRoute])
  · exact ((isRouteReasonable_checks (fun _ _ => 50)
      { demoRoute with mode := .car, distanceKm := 200, durationMinutes := 60 }
      (0, 0) (3, 0)).2.2.2.1 rfl rfl rfl)
  · have h := (isRouteReasonable_checks (fun _ _ => 50)
      { demoRoute with mode := .car, distanceKm := 200, durationMinutes := 60 }
      (0, 0) (3, 0)).2.1 (by norm_num [demoRoute]) (by right; norm_num [demoRoute, maxSpeed])
    exact h.2
  · exact (isRouteReasonable_checks (fun _ _ => 1)
      { demoRoute with mode := .walk, distanceKm := 5, durationMinutes := 60 }
      (0, 0) (3, 0)).2.2.2.2 rfl rfl rfl (by norm_num [demoRoute])

/-! ## Claim C10 -/

/-- C10: when durationMinutes is 0 the average-speed band check is skipped
entirely (the division is guarded by durationMinutes > 0), so the route is
accepted exactly when its distance does not exceed 7 times the straight-line
distance, regardless of travel mode. -/
theorem isRouteReasonable_zero_duration (dist : Pt → Pt → ℚ) (route : Route)
    (s e : Pt) (h : route.durationMinutes = 0) :
    (isRouteReasonable dist route s e = true ↔ route.distanceKm ≤ dist s e * 7) ∧
    ∀ m : TravelMode,
      isRouteReasonable dist { route with mode := m } s e =
        isRouteReasonable dist route s e := by
  have hd : ¬route.durationMinutes > 0 := by rw [h]; norm_num
  constructor
  · by_cases h7 : route.distanceKm > dist s e * 7
    · simp only [isRouteReasonable, if_pos h7]
      constructor
      · intro hfalse
        exact absurd hfalse (by simp)
      · intro hle
        exact absurd h7 (not_lt.mpr hle)
    · exact ⟨fun _ => not_lt.mp h7,
        fun _ => by simp [isRouteReasonable, if_neg h7, if_neg hd]⟩
  · intro m
    by_cases h7 : route.distanceKm > dist s e * 7
    · simp only [isRouteReasonable, if_pos h7]
    · simp only [isRouteReasonable, if_neg h7, if_neg hd]

/-- C10 witness: a zero-duration bike route of distance 7 with straight-line
value 1 sits exactly on the 7x boundary and is accepted; with straight-line
value 1 and distance 8 it is rejected; and the zero-duration check is
mode-independent at a concrete instance. -/
theorem isRouteReasonable_zero_duration_witness :
    isRouteReasonable (fun _ _ => 1)
        { demoRoute with mode := .bike, distanceKm := 7, durationMinutes := 0 }
        (0, 0) (3, 0) = true ∧
    isRouteReasonable (fun _ _ => 1)
        { demoRoute with mode := .car, distanceKm := 7, durationMinutes := 0 }
        (0, 0) (3, 0) =
      isRouteReasonable (fun _ _ => 1)
        { demoRoute with mode := .bike, distanceKm := 7, durationMinutes := 0 }
        (0, 0) (3, 0) := by
  have h := isRouteReasonable_zero_duration (fun _ _ => 1)
    { demoRoute with mode := .bike, distanceKm := 7, durationMinutes := 0 }
    (0, 0) (3, 0) rfl
  constructor
  · exact h.1.mpr (by norm_num)
  · exact h.2 .car

/-! ## Claim C5 -/

/-- The index returned by the search loop is either the initial cursor or
one of the scanned indices. -/
theorem pathSearchLoop_index_lb (dist : Pt → Pt → ℚ) (user : Pt) (path : List Pt)
    (idxs : List ℕ) (b closest : ℕ) (minD : Option ℚ) (inc : ℕ)
    (hc : b ≤ closest) (hi : ∀ i ∈ idxs, b ≤ i) :
    b ≤ (pathSearchLoop dist user path idxs closest minD inc).1 := by
  induction idxs generalizing closest minD inc with
  | nil => exact hc
  | cons i rest ih =>
      have hbi : b ≤ i := hi i (by simp)
      have hrest : ∀ j ∈ rest, b ≤ j := fun j hj => hi j (by simp [hj])
      simp only [pathSearchLoop]
      by_cases hlt : ltInf (dist user (path.getD i (0, 0))) minD = true
      · simp only [if_pos hlt]
        exact ih i (some (dist user (path.getD i (0, 0)))) 0 hbi hrest
      · simp only [if_neg hlt]
        by_cases hbreak : inc + 1 > INCREASING_THRESHOLD
        · simp only [if_pos hbreak]
          exact hc
        · simp only [if_neg hbreak]
          exact ih closest minD (inc + 1) hc hrest

/-- C5 counterexample: the claim says the matched path index is monotonic
non-decreasing across processed fixes, jumping backward only by an explicit
reset.  But the nearest-vertex search scans from max(0, cursor - 20) and
simply returns whatever vertex is closest there: on demoPath with the
cursor at 3 and the traveler standing at vertex 0, the single fix moves the
matched index from 3 back to 0 with no reset involved. -/
theorem matchedIndex_backward_jump :
    (getPathDataFromLocation cdistSq (0, 0) demoPath 3).2.2 = 0 ∧ (0 : ℕ) < 3 := by
  constructor
  · norm_num [getPathDataFromLocation, demoPath, List.range', pathSearchLoop,
      ltInf, cdistSq, INCREASING_THRESHOLD]
  · norm_num

/-- C5 amended: the matched index is not monotone under the code as
written; what does hold is the back-buffer bound: on any processed fix over
a route path with at least 2 vertices, the new matched index never falls
below max(0, previous cursor - 20), for every distance function. -/
theorem matchedIndex_back_buffer_bound (dist : Pt → Pt → ℚ) (user : Pt)
    (path : List Pt) (searchStart : ℕ) (h : 2 ≤ path.length) :
    searchStart - 20 ≤ (getPathDataFromLocation dist user path searchStart).2.2 := by
  have hlen : ¬path.length < 2 := not_lt.mpr h
  simp only [getPathDataFromLocation, if_neg hlen]
  exact pathSearchLoop_index_lb dist user path _ (searchStart - 20) searchStart none 0
    (Nat.sub_le searchStart 20)
    (fun i hi => (List.mem_range'_1.mp hi).1)

/-- C5 amended-claim witness: the bound evaluated on the backward-jump
scenario itself: from cursor 3 the index may fall, but not below
max(0, 3 - 20) = 0. -/
theorem matchedIndex_back_buffer_bound_witness :
    (3 : ℕ) - 20 ≤ (getPathDataFromLocation cdistSq (0, 0) demoPath 3).2.2 := by
  exact matchedIndex_back_buffer_bound cdistSq (0, 0) demoPath 3 (by norm_num [demoPath])

/-! ## Claim C8 -/

/-- The cardinal spline at parameter 0 returns the second control point. -/
theorem getSplinePoint_zero (p0 p1 p2 p3 : Pt) (tension : ℚ) :
    getSplinePoint 0 p0 p1 p2 p3 tension = p1 := by
  refine Prod.ext_iff.mpr ⟨?_, ?_⟩ <;> simp [getSplinePoint]

/-- The cardinal spline at parameter 1 returns the third control point. -/
theorem getSplinePoint_one (p0 p1 p2 p3 : Pt) (tension : ℚ) :
    getSplinePoint 1 p0 p1 p2 p3 tension = p2 := by
  refine Prod.ext_iff.mpr ⟨?_, ?_⟩ <;> simp [getSplinePoint] <;> ring

/-- getLast? of a nonempty list is its getLastD. -/
theorem getLast?_eq_getLastD (l : List Pt) (hne : l ≠ []) (d : Pt) :
    l.getLast? = some (l.getLastD d) := by
  cases l with
  | nil => exact absurd rfl hne
  | cons a t =>
      rw [List.getLastD_eq_getLast?]
      cases h : (a :: t).getLast? with
      | none => simp at h
      | some x => simp

/-- Unfolded form of createSplinePath on at least two waypoints: the flat
list of segment evaluations followed by the forced exact copy of the last
waypoint. -/
theorem createSplinePath_eq (waypoints : List Pt) (substeps : ℕ) (tension : ℚ)
    (h : 2 ≤ waypoints.length) :
    createSplinePath waypoints substeps tension =
      ((List.range' 1 (waypoints.length - 1)).flatMap (fun i =>
        (List.range (substeps + 1)).map (fun (t : ℕ) =>
          getSplinePoint ((t / substeps : ℚ))
            ((waypoints.headI :: (waypoints ++ [waypoints.getLastD (0, 0)])).getD (i - 1) (0, 0))
            ((waypoints.headI :: (waypoints ++ [waypoints.getLastD (0, 0)])).getD i (0, 0))
            ((waypoints.headI :: (waypoints ++ [waypoints.getLastD (0, 0)])).getD (i + 1) (0, 0))
            ((waypoints.headI :: (waypoints ++ [waypoints.getLastD (0, 0)])).getD (i + 2) (0, 0))
            tension))) ++ [waypoints.getLastD (0, 0)] := by
  have hlt : ¬waypoints.length < 2 := not_lt.mpr h
  have hlen : (waypoints.headI :: (waypoints ++ [waypoints.getLastD (0, 0)])).length - 3 =
      waypoints.length - 1 := by
    simp
  have hsucc : waypoints.length - 1 = (waypoints.length - 2) + 1 := by omega
  simp only [createSplinePath, if_neg hlt, hlen]
  have hpos :
      0 < ((List.range' 1 (waypoints.length - 1)).flatMap (fun i =>
        (List.range (substeps + 1)).map (fun (t : ℕ) =>
          getSplinePoint ((t / substeps : ℚ))
            ((waypoints.headI :: (waypoints ++ [waypoints.getLastD (0, 0)])).getD (i - 1) (0, 0))
            ((waypoints.headI :: (waypoints ++ [waypoints.getLastD (0, 0)])).getD i (0, 0))
            ((waypoints.headI :: (waypoints ++ [waypoints.getLastD (0, 0)])).getD (i + 1) (0, 0))
            ((waypoints.headI :: (waypoints ++ [waypoints.getLastD (0, 0)])).getD (i + 2) (0, 0))
            tension))).length := by
    rw [hsucc, List.range'_succ, List.flatMap_cons]
    simp only [List.length_append, List.length_map, List.length_range]
    omega
  rw [if_pos hpos]

/-- C8: the spline smoother returns fewer than 2 waypoints unchanged;
otherwise the produced curve starts at the first input waypoint, ends
exactly at the last input waypoint, and passes exactly through every input
waypoint (each waypoint occurs as an emitted curve point). -/
theorem createSplinePath_through_waypoints (waypoints : List Pt) (substeps : ℕ)
    (tension : ℚ) (hs : 0 < substeps) :
    (waypoints.length < 2 → createSplinePath waypoints substeps tension = waypoints) ∧
    (2 ≤ waypoints.length →
      (createSplinePath waypoints substeps tension).head? = waypoints.head? ∧
      (createSplinePath waypoints substeps tension).getLast? = waypoints.getLast? ∧
      ∀ w ∈ waypoints, w ∈ createSplinePath waypoints substeps tension) := by
  constructor
  · intro h
    simp [createSplinePath, if_pos h]
  · intro h
    rw [createSplinePath_eq waypoints substeps tension h]
    have hsucc : waypoints.length - 1 = (waypoints.length - 2) + 1 := by omega
    have hne : waypoints ≠ [] := by
      intro hnil
      rw [hnil] at h
      simp at h
    have hns : (substeps : ℚ) ≠ 0 := by
      exact_mod_cast Nat.pos_iff_ne_zero.mp hs
    -- the value of a segment evaluation at t = 0
    have hg0 : ∀ i, getSplinePoint (((0 : ℕ) / substeps : ℚ))
        ((waypoints.headI :: (waypoints ++ [waypoints.getLastD (0, 0)])).getD (i - 1) (0, 0))
        ((waypoints.headI :: (waypoints ++ [waypoints.getLastD (0, 0)])).getD i (0, 0))
        ((waypoints.headI :: (waypoints ++ [waypoints.getLastD (0, 0)])).getD (i + 1) (0, 0))
        ((waypoints.headI :: (waypoints ++ [waypoints.getLastD (0, 0)])).getD (i + 2) (0, 0))
        tension =
        (waypoints.headI :: (waypoints ++ [waypoints.getLastD (0, 0)])).getD i (0, 0) := by
      intro i
      rw [Nat.cast_zero, zero_div, getSplinePoint_zero]
    -- the value of a segment evaluation at t = substeps
    have hg1 : ∀ i, getSplinePoint ((substeps / substeps : ℚ))
        ((waypoints.headI :: (waypoints ++ [waypoints.getLastD (0, 0)])).getD (i - 1) (0, 0))
        ((waypoints.headI :: (waypoints ++ [waypoints.getLastD (0, 0)])).getD i (0, 0))
        ((waypoints.headI :: (waypoints ++ [waypoints.getLastD (0, 0)])).getD (i + 1) (0, 0))
        ((waypoints.headI :: (waypoints ++ [waypoints.getLastD (0, 0)])).getD (i + 2) (0, 0))
        tension =
        (waypoints.headI :: (waypoints ++ [waypoints.getLastD (0, 0)])).getD (i + 1) (0, 0) := by
      intro i
      rw [div_self hns, getSplinePoint_one]
    refine ⟨?_, ?_, ?_⟩
    · -- head of the curve = first waypoint
      rw [hsucc, List.range'_succ, List.flatMap_cons, List.range_succ_eq_map,
        List.map_cons, List.cons_append, List.cons_append]
      obtain ⟨w0, tl, rfl⟩ := List.exists_cons_of_ne_nil hne
      rw [List.head?_cons, hg0 1]
      simp only [List.getD_cons_succ]
      rw [List.getD_append _ _ _ _ (by simp)]
      simp
    · -- last of the curve = last waypoint, exactly
      rw [List.getLast?_concat, getLast?_eq_getLastD waypoints hne (0, 0)]
    · -- the curve passes through every waypoint
      intro w hw
      obtain ⟨⟨j, hj⟩, rfl⟩ := List.mem_iff_get.mp hw
      have hval : (waypoints.headI ::
          (waypoints ++ [waypoints.getLastD (0, 0)])).getD (j + 1) (0, 0) =
          waypoints.get ⟨j, hj⟩ := by
        simp only [List.getD_cons_succ]
        rw [List.getD_append _ _ _ _ hj, List.getD_eq_getElem waypoints (0, 0) hj]
        simp
      rcases Nat.eq_zero_or_pos j with hj0 | hjpos
      · -- first waypoint: segment 1 at t = 0
        subst hj0
        refine List.mem_append_left _ (List.mem_flatMap.mpr ⟨1, ?_, ?_⟩)
        · rw [List.mem_range'_1]
          omega
        · refine List.mem_map.mpr ⟨0, by simp, ?_⟩
          rw [hg0 1]
          exact hval
      · -- later waypoints: segment j at t = substeps
        refine List.mem_append_left _ (List.mem_flatMap.mpr ⟨j, ?_, ?_⟩)
        · rw [List.mem_range'_1]
          omega
        · refine List.mem_map.mpr ⟨substeps, by simp, ?_⟩
          rw [hg1 j]
          exact hval

/-- C8 witness: a concrete three-waypoint spline with 2 substeps starts at
the first waypoint, ends exactly at the last, and contains the middle
waypoint. -/
theorem createSplinePath_through_waypoints_witness :
    (createSplinePath [((0 : ℚ), (0 : ℚ)), (1, 1), (2, 0)] 2 (1 / 2)).head? =
        some (0, 0) ∧
    (createSplinePath [((0 : ℚ), (0 : ℚ)), (1, 1), (2, 0)] 2 (1 / 2)).getLast? =
        some (2, 0) ∧
    ((1 : ℚ), (1 : ℚ)) ∈ createSplinePath [((0 : ℚ), (0 : ℚ)), (1, 1), (2, 0)] 2 (1 / 2) := by
  have h := (createSplinePath_through_waypoints [((0 : ℚ), (0 : ℚ)), (1, 1), (2, 0)] 2 (1 / 2)
    (by norm_num)).2 (by norm_num)
  exact ⟨h.1, h.2.1, h.2.2 (1, 1) (by norm_num)⟩

/-! ## Claim C9 -/

/-- Consecutive-displacement first components telescope: their sum is the
last first-component minus the first first-component. -/
theorem sum_deltas_fst (l : List Pt) (hne : l ≠ []) :
    ((List.zipWith (fun prev next => (next.1 - prev.1, next.2 - prev.2)) l l.tail).map
      Prod.fst).sum = (l.getLastD (0, 0)).1 - l.headI.1 := by
  induction l with
  | nil => exact absurd rfl hne
  | cons a t ih =>
      cases t with
      | nil => simp
      | cons b t' =>
          have h := ih (by simp)
          simp only [List.tail_cons, List.zipWith_cons_cons, List.map_cons, List.sum_cons,
            List.headI, List.getLastD_cons] at h ⊢
          rw [h]
          ring

/-- Consecutive-displacement second components telescope likewise. -/
theorem sum_deltas_snd (l : List Pt) (hne : l ≠ []) :
    ((List.zipWith (fun prev next => (next.1 - prev.1, next.2 - prev.2)) l l.tail).map
      Prod.snd).sum = (l.getLastD (0, 0)).2 - l.headI.2 := by
  induction l with
  | nil => exact absurd rfl hne
  | cons a t ih =>
      cases t with
      | nil => simp
      | cons b t' =>
          have h := ih (by simp)
          simp only [List.tail_cons, List.zipWith_cons_cons, List.map_cons, List.sum_cons,
            List.headI, List.getLastD_cons] at h ⊢
          rw [h]
          ring

/-- getLastD of a reversed nonempty list is its head. -/
theorem reverse_getLastD (l : List Pt) (hne : l ≠ []) (d : Pt) :
    l.reverse.getLastD d = l.headI := by
  cases l with
  | nil => exact absurd rfl hne
  | cons a t => simp [List.getLastD_eq_getLast?, List.getLast?_reverse]

/-- headI of a reversed nonempty list is its getLastD. -/
theorem reverse_headI (l : List Pt) (hne : l ≠ []) (d : Pt) :
    l.reverse.headI = l.getLastD d := by
  have hrev : l.reverse ≠ [] := by simp [hne]
  obtain ⟨x, xs, hx⟩ := List.exists_cons_of_ne_nil hrev
  have hx? : l.reverse.head? = some x := by rw [hx]; rfl
  have hgl : l.getLast? = some x := by
    rw [← List.head?_reverse]
    exact hx?
  rw [hx, List.headI_cons, List.getLastD_eq_getLast?, hgl]
  rfl

/-- C9 counterexample: the claim says that with fewer than 2 sightings the
predictor emits a pseudo-random displacement rather than no prediction, but
with zero sightings (fewer than 2) the code returns the empty prediction
list. -/
theorem predictAnimal_zero_sightings :
    predictAnimal 1 0 [] = [] ∧ ([] : List Sighting).length < 2 := by
  exact ⟨rfl, by decide⟩

/-- C9 amended: with zero sightings the predictor emits no waypoints; with
exactly one sighting it emits two pseudo-random steps from the current
point; with at least 2 sightings it emits exactly the two waypoints
last + d and last + 2d, where last is the most recent sighting and d is the
mean displacement between consecutive sightings ordered oldest to newest,
which telescopes to (newest - oldest) / (count - 1). -/
theorem predictAnimal_spec (randCos randSin : ℚ) (sightings : List Sighting) :
    (sightings.length = 0 → predictAnimal randCos randSin sightings = []) ∧
    (sightings.length = 1 →
      predictAnimal randCos randSin sightings =
        [⟨sightings.headI.lat + randomDisplacement * randCos,
          sightings.headI.lon + randomDisplacement * randSin⟩,
          ⟨sightings.headI.lat + 2 * (randomDisplacement * randCos),
            sightings.headI.lon + 2 * (randomDisplacement * randSin)⟩]) ∧
    (2 ≤ sightings.length →
      predictAnimal randCos randSin sightings =
        [⟨sightings.headI.lat +
            (sightings.headI.lat - (sightings.getLastD ⟨0, 0⟩).lat) /
              ((sightings.length : ℚ) - 1),
          sightings.headI.lon +
            (sightings.headI.lon - (sightings.getLastD ⟨0, 0⟩).lon) /
              ((sightings.length : ℚ) - 1)⟩,
          ⟨sightings.headI.lat +
              2 * ((sightings.headI.lat - (sightings.getLastD ⟨0, 0⟩).lat) /
                ((sightings.length : ℚ) - 1)),
            sightings.headI.lon +
              2 * ((sightings.headI.lon - (sightings.getLastD ⟨0, 0⟩).lon) /
                ((sightings.length : ℚ) - 1))⟩]) := by
  refine ⟨fun h0 => ?_, fun h1 => ?_, fun h2 => ?_⟩
  · rw [List.length_eq_zero] at h0
    subst h0
    rfl
  · have hne1 : sightings ≠ [] := by
      intro hnil
      rw [hnil] at h1
      simp at h1
    obtain ⟨s0, rest, rfl⟩ := List.exists_cons_of_ne_nil hne1
    have hrest : rest = [] := by
      simp only [List.length_cons] at h1
      exact List.length_eq_zero.mp (by omega)
    subst hrest
    simp only [predictAnimal, List.length_cons, List.length_nil]
    norm_num
    exact ⟨by ring, by ring⟩
  · have hne : sightings ≠ [] := List.ne_nil_of_length_pos (by omega)
    have hlt1 : ¬sightings.length < 1 := by omega
    have hlt2 : ¬sightings.length < 2 := by omega
    simp only [predictAnimal, if_neg hlt1, if_neg hlt2]
    have hmapne : sightings.map (fun s => ((s.lat : ℚ), (s.lon : ℚ))) ≠ [] := by
      simp [hne]
    have hrevne : (sightings.map (fun s => ((s.lat : ℚ), (s.lon : ℚ)))).reverse ≠ [] := by
      simp [hne]
    have hsum1 := sum_deltas_fst _ hrevne
    have hsum2 := sum_deltas_snd _ hrevne
    have hgl : ((sightings.map (fun s => ((s.lat : ℚ), (s.lon : ℚ)))).reverse).getLastD (0, 0) =
        (sightings.headI.lat, sightings.headI.lon) := by
      rw [reverse_getLastD _ hmapne]
      obtain ⟨s0, rest, rfl⟩ := List.exists_cons_of_ne_nil hne
      simp
    have hhd : ((sightings.map (fun s => ((s.lat : ℚ), (s.lon : ℚ)))).reverse).headI =
        ((sightings.getLastD ⟨0, 0⟩).lat, (sightings.getLastD ⟨0, 0⟩).lon) := by
      rw [reverse_headI _ hmapne ((0 : ℚ), (0 : ℚ))]
      rw [List.getLastD_eq_getLast?, List.getLast?_map, List.getLastD_eq_getLast?]
      obtain ⟨x, hx⟩ := List.getLast?_isSome.mpr hne |> Option.isSome_iff_exists.mp
      simp [hx]
    have hlen : (List.zipWith (fun prev next => (next.1 - prev.1, next.2 - prev.2))
        ((sightings.map (fun s => ((s.lat : ℚ), (s.lon : ℚ)))).reverse)
        ((sightings.map (fun s => ((s.lat : ℚ), (s.lon : ℚ)))).reverse).tail).length =
        sightings.length - 1 := by
      rw [List.length_zipWith, List.length_tail]
      simp only [List.length_reverse, List.length_map]
      omega
    rw [hsum1, hsum2, hgl, hhd, hlen]
    have hcast : ((sightings.length - 1 : ℕ) : ℚ) = (sightings.length : ℚ) - 1 := by
      have : 1 ≤ sightings.length := by omega
      push_cast [this]
      ring
    rw [hcast]
    refine List.cons_eq_cons.mpr ⟨?_, List.cons_eq_cons.mpr ⟨?_, rfl⟩⟩
    · rfl
    · simp only [Sighting.mk.injEq]
      exact ⟨by ring, by ring⟩

/-- C9 witness: three sightings most-recent-first at (4,0), (2,0), (0,0)
have mean displacement (2,0); the predictor emits (6,0) then (8,0). -/
theorem predictAnimal_spec_witness :
    predictAnimal 1 0 [⟨4, 0⟩, ⟨2, 0⟩, ⟨0, 0⟩] = [⟨6, 0⟩, ⟨8, 0⟩] := by
  have h := (predictAnimal_spec 1 0 [⟨4, 0⟩, ⟨2, 0⟩, ⟨0, 0⟩]).2.2 (by decide)
  rw [h]
  norm_num [List.headI, List.getLastD]

/-! ## Claim C4 -/

/-- The alert loop either leaves the state unchanged and raises nothing, or
raises exactly one alert for a qualifying hazard and suppresses it. -/
theorem animalAlertLoop_cases (dist : Pt → Pt → ℚ) (live : Pt)
    (l : List NearbyAnimal) (st : AlertState) :
    animalAlertLoop dist live l st = (st, []) ∨
    ∃ a, a ∈ l ∧ dist live a.current ≤ ANIMAL_ALERT_THRESHOLD_KM ∧ a.id ∉ st.shown ∧
      st.active = none ∧
      animalAlertLoop dist live l st =
        ({ shown := a.id :: st.shown, active := some ⟨some a.id⟩ }, [a.id]) := by
  induction l with
  | nil => exact Or.inl rfl
  | cons a rest ih =>
      by_cases hq : dist live a.current ≤ ANIMAL_ALERT_THRESHOLD_KM ∧ a.id ∉ st.shown
      · cases hact : st.active with
        | none =>
            right
            refine ⟨a, by simp, hq.1, hq.2, rfl, ?_⟩
            simp only [animalAlertLoop, if_pos hq, hact]
        | some x =>
            have hstep : animalAlertLoop dist live (a :: rest) st =
                animalAlertLoop dist live rest st := by
              simp only [animalAlertLoop, if_pos hq, hact]
            rcases ih with h | ⟨b, hb, h1, h2, h3, h4⟩
            · exact Or.inl (by rw [hstep, h])
            · rw [h3] at hact
              cases hact
      · have hstep : animalAlertLoop dist live (a :: rest) st =
            animalAlertLoop dist live rest st := by
          simp only [animalAlertLoop, if_neg hq]
        rcases ih with h | ⟨b, hb, h1, h2, h3, h4⟩
        · exact Or.inl (by rw [hstep, h])
        · exact Or.inr ⟨b, by simp [hb], h1, h2, h3, by rw [hstep, h4]⟩

/-- One fix either raises nothing or raises exactly one alert for a
qualifying hazard under the gating conditions. -/
theorem processAnimalAlerts_cases (dist : Pt → Pt → ℚ) (live : Pt)
    (animals : List NearbyAnimal) (st : AlertState) :
    processAnimalAlerts dist live animals st = (st, []) ∨
    ∃ a, a ∈ animals ∧ dist live a.current ≤ ANIMAL_ALERT_THRESHOLD_KM ∧
      a.id ∉ st.shown ∧ st.active = none ∧
      processAnimalAlerts dist live animals st =
        ({ shown := a.id :: st.shown, active := some ⟨some a.id⟩ }, [a.id]) := by
  by_cases h : animals.length > 0
  · have := animalAlertLoop_cases dist live animals st
    simpa only [processAnimalAlerts, if_pos h] using this
  · exact Or.inl (by simp only [processAnimalAlerts, if_neg h])

/-- A hazard already suppressed never alerts again later in the session. -/
theorem runAlertSession_suppressed (dist : Pt → Pt → ℚ)
    (animals : List NearbyAnimal) (fixes : List (Pt × Bool)) (st : AlertState)
    (id : ℕ) (h : id ∈ st.shown) :
    (runAlertSession dist animals st fixes).2.count id = 0 := by
  induction fixes generalizing st with
  | nil => simp [runAlertSession]
  | cons fx rest ih =>
      obtain ⟨live, cleared⟩ := fx
      simp only [runAlertSession]
      have hsh : ((if cleared then { st with active := none } else st) : AlertState).shown =
          st.shown := by
        cases cleared <;> rfl
      rcases processAnimalAlerts_cases dist live animals
          (if cleared then { st with active := none } else st) with hc | ⟨a, _, _, hnot, _, hc⟩
      · rw [hc]
        simp only [List.nil_append]
        exact ih _ (by rw [hsh]; exact h)
      · rw [hc]
        have hne : a.id ≠ id := by
          intro heq
          rw [hsh] at hnot
          exact hnot (heq ▸ h)
        simp only [List.cons_append, List.nil_append, List.count_cons]
        rw [ih _ (by simp [hsh, h])]
        simp [hne]

/-- Over any run of fixes, each hazard id is alerted at most once. -/
theorem runAlertSession_count_le_one (dist : Pt → Pt → ℚ)
    (animals : List NearbyAnimal) (fixes : List (Pt × Bool)) (st : AlertState)
    (id : ℕ) :
    (runAlertSession dist animals st fixes).2.count id ≤ 1 := by
  induction fixes generalizing st with
  | nil => simp [runAlertSession]
  | cons fx rest ih =>
      obtain ⟨live, cleared⟩ := fx
      simp only [runAlertSession]
      rcases processAnimalAlerts_cases dist live animals
          (if cleared then { st with active := none } else st) with hc | ⟨a, _, _, _, _, hc⟩
      · rw [hc]
        simpa using ih _
      · rw [hc]
        simp only [List.cons_append, List.nil_append, List.count_cons]
        by_cases hid : a.id = id
        · subst hid
          rw [runAlertSession_suppressed dist animals rest _ a.id (by simp)]
          simp
        · simp only [beq_iff_eq, if_neg hid, add_zero]
          exact ih _

/-- C4: during a navigation session each hazard triggers at most one hazard
alert; on any fix, at most one alert is raised, and only for a hazard whose
live distance is within 2 km, that is not yet suppressed, and only while no
alert is active; two successive fixes within 2 km of the same hazard yield
exactly one alert. -/
theorem hazardAlert_once_per_session (dist : Pt → Pt → ℚ)
    (animals : List NearbyAnimal) (st : AlertState) (fixes : List (Pt × Bool)) :
    (∀ id, (runAlertSession dist animals st fixes).2.count id ≤ 1) ∧
    (∀ live st', (processAnimalAlerts dist live animals st').2.length ≤ 1 ∧
      ∀ id, id ∈ (processAnimalAlerts dist live animals st').2 →
        st'.active = none ∧ id ∉ st'.shown ∧
        ∃ a, a ∈ animals ∧ a.id = id ∧
          dist live a.current ≤ ANIMAL_ALERT_THRESHOLD_KM) ∧
    (∀ p1 p2 a, dist p1 a.current ≤ ANIMAL_ALERT_THRESHOLD_KM →
      dist p2 a.current ≤ ANIMAL_ALERT_THRESHOLD_KM →
      (runAlertSession dist [a] ⟨[], none⟩ [(p1, false), (p2, false)]).2 = [a.id]) := by
  refine ⟨fun id => runAlertSession_count_le_one dist animals fixes st id,
    fun live st' => ?_, fun p1 p2 a h1 h2 => ?_⟩
  · rcases processAnimalAlerts_cases dist live animals st' with hc | ⟨a, ha, hd, hn, hact, hc⟩
    · rw [hc]
      exact ⟨by simp, fun id hid => absurd hid (by simp)⟩
    · rw [hc]
      refine ⟨by simp, fun id hid => ?_⟩
      have : id = a.id := by simpa using hid
      subst this
      exact ⟨hact, hn, a, ha, rfl, hd⟩
  · have hs1 : processAnimalAlerts dist p1 [a] ⟨[], none⟩ =
        (⟨[a.id], some ⟨some a.id⟩⟩, [a.id]) := by
      simp [processAnimalAlerts, animalAlertLoop, h1]
    have hs2 : processAnimalAlerts dist p2 [a] ⟨[a.id], some ⟨some a.id⟩⟩ =
        (⟨[a.id], some ⟨some a.id⟩⟩, []) := by
      simp [processAnimalAlerts, animalAlertLoop]
    simp [runAlertSession, hs1, hs2]

/-- C4 witness: a concrete two-fix session under the surrogate metric with
one hazard 1 unit from both fixes: exactly one alert, for that hazard. -/
theorem hazardAlert_once_per_session_witness :
    (runAlertSession cdistSq [⟨5, (1, 0)⟩] ⟨[], none⟩
      [((0, 0), false), ((2, 0), false)]).2 = [5] := by
  have h := (hazardAlert_once_per_session cdistSq [⟨5, (1, 0)⟩] ⟨[], none⟩ []).2.2
    (0, 0) (2, 0) ⟨5, (1, 0)⟩ (by norm_num [cdistSq, ANIMAL_ALERT_THRESHOLD_KM])
    (by norm_num [cdistSq, ANIMAL_ALERT_THRESHOLD_KM])
  exact h

/-! ## Claim C6 -/

/-- C6: a fix is in the approaching-start state exactly when the nearest
path vertex has index 0, the distance to the route's start exceeds 0.5 km,
and no emergency route is active; while approaching, the emitted stats are
the frozen session-start snapshot's totals with 0 percent progress, the
user is told their distance to the start, and the matched path index is not
updated. -/
theorem approachingStart_spec (dist : Pt → Pt → ℚ) (live : Pt)
    (activeRoute : Route) (isEmergency : Bool) (snap : RouteSnapshot)
    (wasApproaching : Bool) (prevIndex : ℕ) :
    ((processRouteProgress dist live activeRoute isEmergency (some snap)
        wasApproaching prevIndex).isApproachingStart = true ↔
      (isEmergency = false ∧
        (getPathDataFromLocation dist live activeRoute.path prevIndex).2.2 = 0 ∧
        dist live activeRoute.startPt > APPROACHING_START_THRESHOLD_KM)) ∧
    ((processRouteProgress dist live activeRoute isEmergency (some snap)
        wasApproaching prevIndex).isApproachingStart = true →
      (processRouteProgress dist live activeRoute isEmergency (some snap)
          wasApproaching prevIndex).stats =
        { remainingKm := snap.distanceKm, etaMinutes := snap.durationMinutes,
          progressPercent := 0 } ∧
      (processRouteProgress dist live activeRoute isEmergency (some snap)
          wasApproaching prevIndex).approachDistanceKm =
        some (dist live activeRoute.startPt) ∧
      (processRouteProgress dist live activeRoute isEmergency (some snap)
          wasApproaching prevIndex).newClosestPathIndex = prevIndex) := by
  by_cases hcond : isEmergency = false ∧
      (getPathDataFromLocation dist live activeRoute.path prevIndex).2.2 = 0 ∧
      dist live activeRoute.startPt > APPROACHING_START_THRESHOLD_KM
  · constructor
    · dsimp only [processRouteProgress]
      rw [if_pos hcond]
      exact ⟨fun _ => hcond, fun _ => rfl⟩
    · intro _
      dsimp only [processRouteProgress]
      rw [if_pos hcond]
      exact ⟨rfl, rfl, rfl⟩
  · constructor
    · dsimp only [processRouteProgress]
      rw [if_neg hcond]
      exact ⟨fun hfalse => absurd hfalse (by simp), fun hc => absurd hc hcond⟩
    · intro hx
      dsimp only [processRouteProgress] at hx
      rw [if_neg hcond] at hx
      exact absurd hx (by simp)

/-- C6 witness: under the surrogate metric, standing at (1,0) with the
route path running (0,0) to (10,0), the nearest vertex has index 0 and the
distance to the start is 1 > 0.5, so the fix is approaching-start: the
emitted stats are the frozen snapshot totals (5 km, 7 min) with 0 percent,
the user is told the distance 1, and the cursor stays at 0. -/
theorem approachingStart_spec_witness :
    (processRouteProgress cdistSq (1, 0)
        { demoRoute with path := [(0, 0), (10, 0)] } false (some ⟨5, 7⟩)
        false 0).isApproachingStart = true ∧
    (processRouteProgress cdistSq (1, 0)
        { demoRoute with path := [(0, 0), (10, 0)] } false (some ⟨5, 7⟩)
        false 0).stats =
      { remainingKm := 5, etaMinutes := 7, progressPercent := 0 } ∧
    (processRouteProgress cdistSq (1, 0)
        { demoRoute with path := [(0, 0), (10, 0)] } false (some ⟨5, 7⟩)
        false 0).newClosestPathIndex = 0 := by
  have h := approachingStart_spec cdistSq (1, 0)
    { demoRoute with path := [(0, 0), (10, 0)] } false ⟨5, 7⟩ false 0
  have hidx : (getPathDataFromLocation cdistSq (1, 0)
      ([(0, 0), (10, 0)] : List Pt) 0).2.2 = 0 := by
    norm_num [getPathDataFromLocation, List.range', pathSearchLoop, ltInf,
      cdistSq, INCREASING_THRESHOLD]
  have happ := h.1.mpr ⟨rfl, hidx,
    by norm_num [cdistSq, demoRoute, APPROACHING_START_THRESHOLD_KM]⟩
  have hout := h.2 happ
  exact ⟨happ, hout.1, hout.2.2⟩

/-! ## Claim C7 -/

/-- C7 counterexample: the claim says the emitted remaining distance equals
totalDistance times (1 - ratio) exactly.  On demoRoute (10 km, 4 path
vertices) with the traveler at vertex 1, ratio = 1/3 and the formula gives
20/3, but the emitted stat is parseFloat((20/3).toFixed(1)) = 6.7, which
differs. -/
theorem navStats_rounding_counterexample :
    (processRouteProgress cdistSq (1, 0) demoRoute false (some ⟨10, 30⟩)
        false 0).isApproachingStart = false ∧
    (processRouteProgress cdistSq (1, 0) demoRoute false (some ⟨10, 30⟩)
        false 0).newClosestPathIndex = 1 ∧
    (processRouteProgress cdistSq (1, 0) demoRoute false (some ⟨10, 30⟩)
        false 0).stats.remainingKm ≠ demoRoute.distanceKm * (1 - 1 / 3) := by
  have hidx : (getPathDataFromLocation cdistSq (1, 0) demoRoute.path 0).2.2 = 1 := by
    norm_num [getPathDataFromLocation, demoRoute, demoPath, List.range',
      pathSearchLoop, ltInf, cdistSq, INCREASING_THRESHOLD]
  have hcond : ¬((false : Bool) = false ∧
      (getPathDataFromLocation cdistSq (1, 0) demoRoute.path 0).2.2 = 0 ∧
      cdistSq (1, 0) demoRoute.startPt > APPROACHING_START_THRESHOLD_KM) := by
    intro hcon
    rw [hidx] at hcon
    exact absurd hcon.2.1 (by norm_num)
  refine ⟨?_, ?_, ?_⟩ <;>
    dsimp only [processRouteProgress] <;>
    rw [if_neg hcond] <;>
    rw [hidx] <;>
    norm_num [demoRoute, demoPath, roundTo1, jsRound]

/-- C7 amended: outside the approaching-start state the emitted stats
satisfy the claimed formulas up to the emission rounding the code applies:
with ratio = matchedIndex / (pathLength - 1) (0 when the path has fewer
than 2 points), remaining distance is totalDistance times (1 - ratio)
rounded to one decimal place, ETA is totalDuration times (1 - ratio)
rounded to the nearest minute, progress percent is round(ratio times 100)
clamped to [0, 100], and the matched index is updated to the search
result. -/
theorem navStats_formulas (dist : Pt → Pt → ℚ) (live : Pt)
    (activeRoute : Route) (isEmergency : Bool) (snapshot : Option RouteSnapshot)
    (wasApproaching : Bool) (prevIndex : ℕ)
    (hout : (processRouteProgress dist live activeRoute isEmergency snapshot
      wasApproaching prevIndex).isApproachingStart = false) :
    (processRouteProgress dist live activeRoute isEmergency snapshot
        wasApproaching prevIndex).stats.remainingKm =
      roundTo1 (activeRoute.distanceKm *
        (1 - (if activeRoute.path.length > 1 then
          ((getPathDataFromLocation dist live activeRoute.path prevIndex).2.2 : ℚ) /
            ((activeRoute.path.length : ℚ) - 1)
        else 0))) ∧
    (processRouteProgress dist live activeRoute isEmergency snapshot
        wasApproaching prevIndex).stats.etaMinutes =
      (jsRound (activeRoute.durationMinutes *
        (1 - (if activeRoute.path.length > 1 then
          ((getPathDataFromLocation dist live activeRoute.path prevIndex).2.2 : ℚ) /
            ((activeRoute.path.length : ℚ) - 1)
        else 0))) : ℚ) ∧
    (processRouteProgress dist live activeRoute isEmergency snapshot
        wasApproaching prevIndex).stats.progressPercent =
      max 0 (min 100 (jsRound ((if activeRoute.path.length > 1 then
          ((getPathDataFromLocation dist live activeRoute.path prevIndex).2.2 : ℚ) /
            ((activeRoute.path.length : ℚ) - 1)
        else 0) * 100))) ∧
    (processRouteProgress dist live activeRoute isEmergency snapshot
        wasApproaching prevIndex).newClosestPathIndex =
      (getPathDataFromLocation dist live activeRoute.path prevIndex).2.2 := by
  by_cases hcond : isEmergency = false ∧
      (getPathDataFromLocation dist live activeRoute.path prevIndex).2.2 = 0 ∧
      dist live activeRoute.startPt > APPROACHING_START_THRESHOLD_KM
  · dsimp only [processRouteProgress] at hout
    rw [if_pos hcond] at hout
    exact absurd hout (by simp)
  · dsimp only [processRouteProgress]
    rw [if_neg hcond]
    exact ⟨rfl, rfl, rfl, rfl⟩

/-- C7 amended-claim witness: on demoRoute at vertex 1 (ratio 1/3) the
emitted stats are remaining 6.7 km, ETA 20 min, progress 33 percent, and
the cursor advances to 1. -/
theorem navStats_formulas_witness :
    (processRouteProgress cdistSq (1, 0) demoRoute false (some ⟨10, 30⟩)
        false 0).stats.remainingKm = 67 / 10 ∧
    (processRouteProgress cdistSq (1, 0) demoRoute false (some ⟨10, 30⟩)
        false 0).stats.etaMinutes = 20 ∧
    (processRouteProgress cdistSq (1, 0) demoRoute false (some ⟨10, 30⟩)
        false 0).stats.progressPercent = 33 := by
  have hidx : (getPathDataFromLocation cdistSq (1, 0) demoRoute.path 0).2.2 = 1 := by
    norm_num [getPathDataFromLocation, demoRoute, demoPath, List.range',
      pathSearchLoop, ltInf, cdistSq, INCREASING_THRESHOLD]
  have hnot : (processRouteProgress cdistSq (1, 0) demoRoute false (some ⟨10, 30⟩)
      false 0).isApproachingStart = false := by
    have hcond : ¬((false : Bool) = false ∧
        (getPathDataFromLocation cdistSq (1, 0) demoRoute.path 0).2.2 = 0 ∧
        cdistSq (1, 0) demoRoute.startPt > APPROACHING_START_THRESHOLD_KM) := by
      intro hcon
      rw [hidx] at hcon
      exact absurd hcon.2.1 (by norm_num)
    dsimp only [processRouteProgress]
    rw [if_neg hcond]
  have h := navStats_formulas cdistSq (1, 0) demoRoute false (some ⟨10, 30⟩)
    false 0 hnot
  refine ⟨?_, ?_, ?_⟩
  · rw [h.1, hidx]
    norm_num [demoRoute, demoPath, roundTo1, jsRound]
  · rw [h.2.1, hidx]
    norm_num [demoRoute, demoPath, jsRound]
  · rw [h.2.2.1, hidx]
    norm_num [demoRoute, demoPath, jsRound]

end WildSafePath
